import Mathlib

/-!
Verification of the crate-digging carousel state machine.

Shallow embedding of the `AlbumCrate` UI component and the albums API
client of the crate-digging repository.  The component's reactive refs
become fields of a single state record; each handler function of the
component becomes a pure state-transition function translated line by
line from the source.  Asynchronous fetches are modelled by passing the
fetch outcome (`Except`) into `loadAlbums`; the `setTimeout`-deferred
autoplay is modelled by a counter of scheduled timer callbacks.
JavaScript numbers holding pixel coordinates are modelled as rationals;
index arithmetic (`albums.length - 1`) is carried out in `Int`, matching
JS semantics where `length - 1` is `-1` for an empty list.
-/

/-- Album from `types.ts`: fields `year`, `genre`, `genres`,
`deezer_link`, `nb_tracks` are nullable in the source. -/
structure Album where
  id : Int
  title : String
  artist : String
  cover_url : String
  preview_url : String
  year : Option String
  genre : Option String
  genres : Option (List String)
  deezer_id : Int
  deezer_link : Option String
  nb_tracks : Option Int
deriving DecidableEq, Repr

/-- Genre from `types.ts`. -/
structure Genre where
  id : Int
  name : String
deriving DecidableEq, Repr

/-- AlbumCollection from `types.ts`: the payload of a successful
`fetchRandomAlbums`. -/
structure AlbumCollection where
  albums : List Album
  total : Int
deriving DecidableEq, Repr

/-- The component state: one field per reactive ref of `AlbumCrate.vue`,
plus the state of the single bound `HTMLAudioElement` (`audioBound` is
whether `audioRef.value` is non-null, i.e. the element has been mounted)
and `scheduledPlays`, counting the deferred-autoplay `setTimeout`
callbacks that navigation has scheduled. -/
structure CrateState where
  albums : List Album
  currentIndex : Int
  isLoading : Bool
  error : Option String
  audioBound : Bool
  audioSrc : Option String
  audioPaused : Bool
  audioTime : ℚ
  audioVolume : ℚ
  isPlaying : Bool
  isDragging : Bool
  dragStartX : ℚ
  dragOffset : ℚ
  hasInteracted : Bool
  genres : List Genre
  selectedGenres : List Int
  showGenreFilter : Bool
  showOnlyAlbums : Bool
  scheduledPlays : Nat
deriving DecidableEq, Repr

/-- The computed `currentAlbum = albums[currentIndex]`: `undefined`
(`none`) when the index is negative or past the end, as JS indexing
behaves. -/
def currentAlbum (s : CrateState) : Option Album :=
  if 0 ≤ s.currentIndex then s.albums.get? s.currentIndex.toNat else none

/-- Handler `stopPreview()`: returns immediately when no audio element is bound;
otherwise pauses, rewinds `currentTime` to `0` and clears `isPlaying`. -/
def stopPreview (s : CrateState) : CrateState :=
  if s.audioBound = false then s
  else { s with audioPaused := true, audioTime := 0, isPlaying := false }

/-- Handler `playPreview()`: returns immediately when there is no current album
or no audio element; otherwise records the interaction, binds the
preview URL at volume `0.5` and requests playback.  The `play()` call
can be rejected by the runtime's autoplay policy — `allowed` says
whether the device actually starts — but `isPlaying` is set
optimistically either way, as in the source (the rejection is caught
and ignored). -/
def playPreview (allowed : Bool) (s : CrateState) : CrateState :=
  match currentAlbum s with
  | none => s
  | some a =>
    if s.audioBound = false then s
    else
      { s with hasInteracted := true, audioSrc := some a.preview_url,
               audioVolume := 1/2,
               audioPaused := if allowed then false else s.audioPaused,
               isPlaying := true }

/-- The sequence of states a run of `goToNext()` passes through: the
initial state, the state after `stopPreview()`, the state after
`currentIndex++`, and the state after the conditional
`setTimeout(playPreview, 150)`.  The guard compares in `Int`, as JS
does (`length - 1` is `-1` when the list is empty). -/
def goToNextTrace (s : CrateState) : List CrateState :=
  if s.currentIndex < (s.albums.length : Int) - 1 then
    let s1 := stopPreview s
    let s2 := { s1 with currentIndex := s1.currentIndex + 1 }
    let s3 := if s2.hasInteracted then
                { s2 with scheduledPlays := s2.scheduledPlays + 1 }
              else s2
    [s, s1, s2, s3]
  else [s]

/-- Handler `goToNext()`: the final state of its run. -/
def goToNext (s : CrateState) : CrateState :=
  if s.currentIndex < (s.albums.length : Int) - 1 then
    let s1 := stopPreview s
    let s2 := { s1 with currentIndex := s1.currentIndex + 1 }
    if s2.hasInteracted then
      { s2 with scheduledPlays := s2.scheduledPlays + 1 }
    else s2
  else s

/-- The sequence of states a run of `goToPrev()` passes through,
mirroring `goToNextTrace`. -/
def goToPrevTrace (s : CrateState) : List CrateState :=
  if 0 < s.currentIndex then
    let s1 := stopPreview s
    let s2 := { s1 with currentIndex := s1.currentIndex - 1 }
    let s3 := if s2.hasInteracted then
                { s2 with scheduledPlays := s2.scheduledPlays + 1 }
              else s2
    [s, s1, s2, s3]
  else [s]

/-- Handler `goToPrev()`: the final state of its run. -/
def goToPrev (s : CrateState) : CrateState :=
  if 0 < s.currentIndex then
    let s1 := stopPreview s
    let s2 := { s1 with currentIndex := s1.currentIndex - 1 }
    if s2.hasInteracted then
      { s2 with scheduledPlays := s2.scheduledPlays + 1 }
    else s2
  else s

/-- Handler `handleDragStart(e)` with the pointer at abscissa `x`. -/
def handleDragStart (x : ℚ) (s : CrateState) : CrateState :=
  { s with isDragging := true, dragStartX := x, dragOffset := 0 }

/-- Handler `handleDragMove(e)` with the pointer at abscissa `x`: ignored
outside a drag. -/
def handleDragMove (x : ℚ) (s : CrateState) : CrateState :=
  if s.isDragging = false then s
  else { s with dragOffset := x - s.dragStartX }

/-- Handler `handleDragEnd()`: ignored outside a drag; otherwise leaves the
dragging state, navigates when the recorded offset clears the fixed
threshold of 80 in either direction, and always clears the offset. -/
def handleDragEnd (s : CrateState) : CrateState :=
  if s.isDragging = false then s
  else
    let s1 := { s with isDragging := false }
    let s2 := if s1.dragOffset > 80 then goToPrev s1
              else if s1.dragOffset < -80 then goToNext s1
              else s1
    { s2 with dragOffset := 0 }

/-- Handler `toggleGenre(genreId)`: stops any playing audio, then removes the id
at its first occurrence (`splice(indexOf, 1)`) when present, else
appends it (`push`). -/
def toggleGenre (genreId : Int) (s : CrateState) : CrateState :=
  let s1 := stopPreview s
  if genreId ∈ s1.selectedGenres then
    { s1 with selectedGenres := s1.selectedGenres.erase genreId }
  else
    { s1 with selectedGenres := s1.selectedGenres ++ [genreId] }

/-- Handler `clearGenreFilter()`. -/
def clearGenreFilter (s : CrateState) : CrateState :=
  { s with selectedGenres := [] }

/-- The error message assigned by `loadAlbums` when the fetch rejects. -/
def loadFailureMessage : String :=
  "Failed to load albums. Make sure the backend is running."

/-- The `genreIds` argument `loadAlbums` passes to `fetchRandomAlbums`:
the selection when non-empty, `undefined` otherwise. -/
def loadGenreIds (s : CrateState) : Option (List Int) :=
  if s.selectedGenres.length > 0 then some s.selectedGenres else none

/-- The `minTracks` argument `loadAlbums` passes to `fetchRandomAlbums`:
`2` when filtering to albums only, `undefined` otherwise. -/
def loadMinTracks (s : CrateState) : Option Int :=
  if s.showOnlyAlbums then some 2 else none

/-- Handler `loadAlbums()`, as a function of the outcome of the awaited
`fetchRandomAlbums` call: stops audio, enters the loading state,
clears the error and the filter panel; on success installs the fetched
albums and resets the index to 0, on failure records the error message
and changes nothing else; the `finally` block clears `isLoading` on
both paths. -/
def loadAlbums (result : Except String AlbumCollection) (s : CrateState) :
    CrateState :=
  let s1 := stopPreview s
  let s2 := { s1 with isLoading := true, error := none, showGenreFilter := false }
  match result with
  | .ok data =>
      { s2 with albums := data.albums, currentIndex := 0, isLoading := false }
  | .error _ =>
      { s2 with error := some loadFailureMessage, isLoading := false }

/-- The `&genres=` segment of the random-albums URL in `api.ts`:
appended only when `genreIds` is defined and non-empty. -/
def genresParam (genreIds : Option (List Int)) : String :=
  match genreIds with
  | some ids =>
      if ids.length > 0 then "&genres=" ++ String.intercalate "," (ids.map toString)
      else ""
  | none => ""

/-- The `&min_tracks=` segment of the random-albums URL in `api.ts`:
appended only when `minTracks` is defined and positive. -/
def minTracksParam (minTracks : Option Int) : String :=
  match minTracks with
  | some mt => if mt > 0 then "&min_tracks=" ++ toString mt else ""
  | none => ""

/-- The query string `fetchRandomAlbums` builds after
`/albums/random?`: `count=` always, then the conditional `genres` and
`min_tracks` segments, in that order. -/
def albumsRandomQuery (count : Int) (genreIds : Option (List Int))
    (minTracks : Option Int) : String :=
  let url := "count=" ++ toString count
  let url := match genreIds with
    | some ids =>
        if ids.length > 0 then
          url ++ "&genres=" ++ String.intercalate "," (ids.map toString)
        else url
    | none => url
  let url := match minTracks with
    | some mt => if mt > 0 then url ++ "&min_tracks=" ++ toString mt else url
    | none => url
  url

/-- The collection-index invariant of the spec's data model: whenever
the album list is non-empty, `0 ≤ currentIndex < albums.length`. -/
def indexInv (s : CrateState) : Prop :=
  s.albums ≠ [] → 0 ≤ s.currentIndex ∧ s.currentIndex < (s.albums.length : Int)

instance (s : CrateState) : Decidable (indexInv s) := by
  unfold indexInv; infer_instance


/-- A concrete album, taken from the component test fixtures. -/
def demoAlbum1 : Album :=
  { id := 1, title := "Test Album 1", artist := "Artist 1",
    cover_url := "https://example.com/cover1.jpg",
    preview_url := "https://example.com/preview1.mp3",
    year := some "2024", genre := some "Rock", genres := none,
    deezer_id := 1, deezer_link := some "https://deezer.com/album/1",
    nb_tracks := some 10 }

/-- A second concrete album from the test fixtures. -/
def demoAlbum2 : Album :=
  { id := 2, title := "Test Album 2", artist := "Artist 2",
    cover_url := "https://example.com/cover2.jpg",
    preview_url := "https://example.com/preview2.mp3",
    year := some "2023", genre := some "Jazz", genres := none,
    deezer_id := 2, deezer_link := some "https://deezer.com/album/2",
    nb_tracks := some 8 }

/-- A concrete component state: two albums loaded, audio element
mounted, nothing playing, no active gesture. -/
def demoState : CrateState :=
  { albums := [demoAlbum1, demoAlbum2], currentIndex := 0,
    isLoading := false, error := none, audioBound := true,
    audioSrc := none, audioPaused := true, audioTime := 0,
    audioVolume := 1/2, isPlaying := false, isDragging := false,
    dragStartX := 0, dragOffset := 0, hasInteracted := false,
    genres := [⟨132, "Pop"⟩, ⟨152, "Rock"⟩, ⟨129, "Jazz"⟩],
    selectedGenres := [], showGenreFilter := false,
    showOnlyAlbums := false, scheduledPlays := 0 }

/-- The demo state while the first album's preview is playing. -/
def demoPlaying : CrateState :=
  { demoState with
    isPlaying := true, audioPaused := false,
    audioSrc := some demoAlbum1.preview_url, hasInteracted := true }

/-- The demo state mid-gesture with the card dragged 150 units left. -/
def demoDragLeft : CrateState :=
  { demoState with
    isDragging := true, dragStartX := 400, dragOffset := -150 }

/-- The demo state mid-gesture with the card dragged 45 units right,
short of the navigation threshold. -/
def demoDragShort : CrateState :=
  { demoState with
    isDragging := true, dragStartX := 400, dragOffset := 45 }

/-- A state with nothing loaded: no albums and no mounted audio
element, as before the first successful fetch. -/
def demoEmpty : CrateState :=
  { demoState with albums := [], audioBound := false }

/-- The `stopPreview` normal form: a single record update whose fields
carry the bound-device conditional. -/
theorem stopPreview_eq (s : CrateState) :
    stopPreview s =
      { s with
        audioPaused := if s.audioBound = false then s.audioPaused else true,
        audioTime := if s.audioBound = false then s.audioTime else 0,
        isPlaying := if s.audioBound = false then s.isPlaying else false } := by
  cases s
  unfold stopPreview
  split <;> simp_all

@[simp] theorem stopPreview_albums (s : CrateState) :
    (stopPreview s).albums = s.albums := by rw [stopPreview_eq]

@[simp] theorem stopPreview_currentIndex (s : CrateState) :
    (stopPreview s).currentIndex = s.currentIndex := by rw [stopPreview_eq]

@[simp] theorem stopPreview_audioBound (s : CrateState) :
    (stopPreview s).audioBound = s.audioBound := by rw [stopPreview_eq]

@[simp] theorem stopPreview_hasInteracted (s : CrateState) :
    (stopPreview s).hasInteracted = s.hasInteracted := by rw [stopPreview_eq]

@[simp] theorem stopPreview_isDragging (s : CrateState) :
    (stopPreview s).isDragging = s.isDragging := by rw [stopPreview_eq]

@[simp] theorem stopPreview_dragOffset (s : CrateState) :
    (stopPreview s).dragOffset = s.dragOffset := by rw [stopPreview_eq]

@[simp] theorem stopPreview_selectedGenres (s : CrateState) :
    (stopPreview s).selectedGenres = s.selectedGenres := by rw [stopPreview_eq]

@[simp] theorem stopPreview_scheduledPlays (s : CrateState) :
    (stopPreview s).scheduledPlays = s.scheduledPlays := by rw [stopPreview_eq]

@[simp] theorem stopPreview_error (s : CrateState) :
    (stopPreview s).error = s.error := by rw [stopPreview_eq]

@[simp] theorem stopPreview_isLoading (s : CrateState) :
    (stopPreview s).isLoading = s.isLoading := by rw [stopPreview_eq]

/-- The `goToNext` normal form: guarded by the JS comparison
`currentIndex < length - 1`; on the taken branch the state is stopped,
the index incremented, and a deferred autoplay scheduled when the user
has interacted before. -/
theorem goToNext_eq (s : CrateState) :
    goToNext s =
      if s.currentIndex < (s.albums.length : Int) - 1 then
        { stopPreview s with
          currentIndex := s.currentIndex + 1,
          scheduledPlays := if s.hasInteracted then s.scheduledPlays + 1
                            else s.scheduledPlays }
      else s := by
  unfold goToNext
  split
  · rw [stopPreview_eq]; cases s; simp_all; split_ifs <;> simp_all
  · rfl

/-- The `goToPrev` normal form, mirroring `goToNext_eq`. -/
theorem goToPrev_eq (s : CrateState) :
    goToPrev s =
      if 0 < s.currentIndex then
        { stopPreview s with
          currentIndex := s.currentIndex - 1,
          scheduledPlays := if s.hasInteracted then s.scheduledPlays + 1
                            else s.scheduledPlays }
      else s := by
  unfold goToPrev
  split
  · rw [stopPreview_eq]; cases s; simp_all; split_ifs <;> simp_all
  · rfl

theorem stopPreview_isPlaying (s : CrateState) :
    (stopPreview s).isPlaying =
      if s.audioBound = false then s.isPlaying else false := by
  rw [stopPreview_eq]

theorem stopPreview_audioPaused (s : CrateState) :
    (stopPreview s).audioPaused =
      if s.audioBound = false then s.audioPaused else true := by
  rw [stopPreview_eq]

theorem stopPreview_audioTime (s : CrateState) :
    (stopPreview s).audioTime =
      if s.audioBound = false then s.audioTime else 0 := by
  rw [stopPreview_eq]

/-- Under the reachability invariant that a playing state implies a
bound device, `stopPreview` always leaves `isPlaying` cleared. -/
theorem stopPreview_isPlaying_false (s : CrateState)
    (hb : s.isPlaying = true → s.audioBound = true) :
    (stopPreview s).isPlaying = false := by
  rw [stopPreview_isPlaying]
  cases hbd : s.audioBound with
  | false =>
    cases hip : s.isPlaying with
    | false => simp
    | true => rw [hb hip] at hbd; exact absurd hbd (by simp)
  | true => simp

@[simp] theorem goToNext_albums (s : CrateState) :
    (goToNext s).albums = s.albums := by
  rw [goToNext_eq]; split <;> simp

@[simp] theorem goToPrev_albums (s : CrateState) :
    (goToPrev s).albums = s.albums := by
  rw [goToPrev_eq]; split <;> simp

theorem goToNext_currentIndex (s : CrateState) :
    (goToNext s).currentIndex =
      if s.currentIndex < (s.albums.length : Int) - 1 then s.currentIndex + 1
      else s.currentIndex := by
  rw [goToNext_eq]; split <;> simp

theorem goToPrev_currentIndex (s : CrateState) :
    (goToPrev s).currentIndex =
      if 0 < s.currentIndex then s.currentIndex - 1 else s.currentIndex := by
  rw [goToPrev_eq]; split <;> simp

theorem goToNext_scheduledPlays_of_quiet (s : CrateState)
    (h : s.hasInteracted = false) :
    (goToNext s).scheduledPlays = s.scheduledPlays := by
  rw [goToNext_eq]; split <;> simp [h]

theorem goToPrev_scheduledPlays_of_quiet (s : CrateState)
    (h : s.hasInteracted = false) :
    (goToPrev s).scheduledPlays = s.scheduledPlays := by
  rw [goToPrev_eq]; split <;> simp [h]

theorem goToNext_indexInv (s : CrateState) (h : indexInv s) :
    indexInv (goToNext s) := by
  intro hne
  rw [goToNext_albums] at hne
  rw [goToNext_albums, goToNext_currentIndex]
  have hlen : 0 < s.albums.length := List.length_pos.mpr hne
  have := h hne
  split <;> omega

theorem goToPrev_indexInv (s : CrateState) (h : indexInv s) :
    indexInv (goToPrev s) := by
  intro hne
  rw [goToPrev_albums] at hne
  rw [goToPrev_albums, goToPrev_currentIndex]
  have hlen : 0 < s.albums.length := List.length_pos.mpr hne
  have := h hne
  split <;> omega

/-- The `handleDragEnd` normal form: three threshold branches, each
resetting the gesture state. -/
theorem handleDragEnd_eq (s : CrateState) :
    handleDragEnd s =
      if s.isDragging = false then s
      else if s.dragOffset > 80 then
        { goToPrev { s with isDragging := false } with dragOffset := 0 }
      else if s.dragOffset < -80 then
        { goToNext { s with isDragging := false } with dragOffset := 0 }
      else { s with isDragging := false, dragOffset := 0 } := by
  unfold handleDragEnd
  by_cases hd : s.isDragging = false
  · simp [hd]
  · by_cases h1 : s.dragOffset > 80
    · simp [hd, h1]
    · by_cases h2 : s.dragOffset < -80
      · simp [hd, h1, h2]
      · simp [hd, h1, h2]

theorem handleDragEnd_indexInv (s : CrateState) (h : indexInv s) :
    indexInv (handleDragEnd s) := by
  rw [handleDragEnd_eq]
  split_ifs
  · exact h
  · exact goToPrev_indexInv { s with isDragging := false } h
  · exact goToNext_indexInv { s with isDragging := false } h
  · exact h

/-- The `loadAlbums` normal form on a successful fetch. -/
theorem loadAlbums_ok_eq (data : AlbumCollection) (s : CrateState) :
    loadAlbums (Except.ok data) s =
      { stopPreview s with
        albums := data.albums, currentIndex := 0,
        isLoading := false, error := none, showGenreFilter := false } := rfl

/-- The `loadAlbums` normal form on a failed fetch. -/
theorem loadAlbums_error_eq (e : String) (s : CrateState) :
    loadAlbums (Except.error e) s =
      { stopPreview s with
        isLoading := false,
        error := some loadFailureMessage, showGenreFilter := false } := rfl

theorem loadAlbums_indexInv (r : Except String AlbumCollection)
    (s : CrateState) (h : indexInv s) : indexInv (loadAlbums r s) := by
  cases r with
  | ok data =>
    rw [loadAlbums_ok_eq]
    intro hne
    refine ⟨le_refl 0, ?_⟩
    have hp : 0 < data.albums.length := List.length_pos.mpr hne
    show (0 : Int) < (data.albums.length : Int)
    exact_mod_cast hp
  | error e =>
    rw [loadAlbums_error_eq]
    intro hne
    have hne2 : s.albums ≠ [] := by simpa using hne
    have hb := h hne2
    simpa using hb

/-- C1: every operation preserves the collection-index invariant:
whenever the album list is non-empty, `0 ≤ currentIndex < albums.length`;
in particular `goToNext`, `goToPrev`, `handleDragEnd`, and `loadAlbums`
(on success or failure) never move `currentIndex` outside these
bounds. -/
theorem claim1_indexInv_preserved (s : CrateState) (h : indexInv s) :
    indexInv (goToNext s) ∧ indexInv (goToPrev s) ∧
    indexInv (handleDragEnd s) ∧
    ∀ r : Except String AlbumCollection, indexInv (loadAlbums r s) :=
  ⟨goToNext_indexInv s h, goToPrev_indexInv s h, handleDragEnd_indexInv s h,
   fun r => loadAlbums_indexInv r s h⟩

/-- Witness for C1 at a concrete two-album state. -/
theorem claim1_indexInv_preserved_check :
    indexInv (goToNext demoState) ∧ indexInv (goToPrev demoState) ∧
    indexInv (handleDragEnd demoState) ∧
    indexInv (loadAlbums (Except.error "boom") demoState) := by
  have h := claim1_indexInv_preserved demoState (by decide)
  exact ⟨h.1, h.2.1, h.2.2.1, h.2.2.2 _⟩

/-- C2: for a collection of length `n`, `goToNext` from index
`i < n - 1` sets the index to `i + 1` and from `i = n - 1` changes
nothing at all; symmetrically `goToPrev` from `i > 0` sets the index to
`i - 1` and changes nothing at index `0`. -/
theorem claim2_nav_step (s : CrateState) :
    (s.currentIndex < (s.albums.length : Int) - 1 →
        (goToNext s).currentIndex = s.currentIndex + 1) ∧
    (s.currentIndex = (s.albums.length : Int) - 1 → goToNext s = s) ∧
    (0 < s.currentIndex → (goToPrev s).currentIndex = s.currentIndex - 1) ∧
    (s.currentIndex = 0 → goToPrev s = s) := by
  refine ⟨fun hlt => ?_, fun heq => ?_, fun hpos => ?_, fun h0 => ?_⟩
  · rw [goToNext_currentIndex, if_pos hlt]
  · rw [goToNext_eq, if_neg (by omega)]
  · rw [goToPrev_currentIndex, if_pos hpos]
  · rw [goToPrev_eq, if_neg (by omega)]

/-- Witness for C2: at the first of two albums, `goToNext` advances to
index 1 and `goToPrev` is the identity. -/
theorem claim2_nav_step_check :
    (goToNext demoState).currentIndex = demoState.currentIndex + 1 ∧
    goToPrev demoState = demoState := by
  have h := claim2_nav_step demoState
  exact ⟨h.1 (by decide), h.2.2.2 (by decide)⟩

/-- The `goToNextTrace` normal form: the four intermediate states on
the taken branch, written as record updates of `stopPreview s`. -/
theorem goToNextTrace_eq (s : CrateState) :
    goToNextTrace s =
      if s.currentIndex < (s.albums.length : Int) - 1 then
        [s, stopPreview s,
         { stopPreview s with currentIndex := s.currentIndex + 1 },
         { stopPreview s with
           currentIndex := s.currentIndex + 1,
           scheduledPlays := if s.hasInteracted then s.scheduledPlays + 1
                             else s.scheduledPlays }]
      else [s] := by
  unfold goToNextTrace
  split
  · next hg =>
    by_cases hi : s.hasInteracted = true <;> simp [hi]
  · next hg => rfl

/-- The `goToPrevTrace` normal form, mirroring `goToNextTrace_eq`. -/
theorem goToPrevTrace_eq (s : CrateState) :
    goToPrevTrace s =
      if 0 < s.currentIndex then
        [s, stopPreview s,
         { stopPreview s with currentIndex := s.currentIndex - 1 },
         { stopPreview s with
           currentIndex := s.currentIndex - 1,
           scheduledPlays := if s.hasInteracted then s.scheduledPlays + 1
                             else s.scheduledPlays }]
      else [s] := by
  unfold goToPrevTrace
  split
  · next hg =>
    by_cases hi : s.hasInteracted = true <;> simp [hi]
  · next hg => rfl

/-- C3: whenever `goToNext` or `goToPrev` changes the index, the
effects of `stopPreview` (playback no longer `Playing`; on a bound
device also paused with position zero) are already in force in every
intermediate state whose index differs from the starting one — the
stop happens before the index mutation is observable.  The head and
last entries of each trace tie it to the initial and final states. -/
theorem claim3_stop_precedes_move (s : CrateState)
    (hb : s.isPlaying = true → s.audioBound = true) :
    (∀ t ∈ goToNextTrace s, t.currentIndex ≠ s.currentIndex →
        t.isPlaying = false ∧
        (s.audioBound = true → t.audioPaused = true ∧ t.audioTime = 0)) ∧
    (∀ t ∈ goToPrevTrace s, t.currentIndex ≠ s.currentIndex →
        t.isPlaying = false ∧
        (s.audioBound = true → t.audioPaused = true ∧ t.audioTime = 0)) ∧
    (goToNextTrace s).head? = some s ∧
    (goToNextTrace s).getLast? = some (goToNext s) ∧
    (goToPrevTrace s).head? = some s ∧
    (goToPrevTrace s).getLast? = some (goToPrev s) := by
  have hstop : (stopPreview s).isPlaying = false := stopPreview_isPlaying_false s hb
  have hpt : s.audioBound = true →
      (stopPreview s).audioPaused = true ∧ (stopPreview s).audioTime = 0 := by
    intro hbd
    rw [stopPreview_audioPaused, stopPreview_audioTime]
    simp [hbd]
  refine ⟨?_, ?_, ?_, ?_, ?_, ?_⟩
  · intro t ht hne
    rw [goToNextTrace_eq] at ht
    by_cases hg : s.currentIndex < (s.albums.length : Int) - 1
    · rw [if_pos hg] at ht
      simp only [List.mem_cons, List.not_mem_nil, or_false] at ht
      rcases ht with rfl | rfl | rfl | rfl
      · exact absurd rfl hne
      · rw [stopPreview_currentIndex] at hne
        exact absurd rfl hne
      · exact ⟨hstop, hpt⟩
      · exact ⟨hstop, hpt⟩
    · rw [if_neg hg] at ht
      simp only [List.mem_cons, List.not_mem_nil, or_false] at ht
      subst ht
      exact absurd rfl hne
  · intro t ht hne
    rw [goToPrevTrace_eq] at ht
    by_cases hg : 0 < s.currentIndex
    · rw [if_pos hg] at ht
      simp only [List.mem_cons, List.not_mem_nil, or_false] at ht
      rcases ht with rfl | rfl | rfl | rfl
      · exact absurd rfl hne
      · rw [stopPreview_currentIndex] at hne
        exact absurd rfl hne
      · exact ⟨hstop, hpt⟩
      · exact ⟨hstop, hpt⟩
    · rw [if_neg hg] at ht
      simp only [List.mem_cons, List.not_mem_nil, or_false] at ht
      subst ht
      exact absurd rfl hne
  · rw [goToNextTrace_eq]
    split <;> rfl
  · rw [goToNextTrace_eq, goToNext_eq]
    by_cases hg : s.currentIndex < (s.albums.length : Int) - 1
    · rw [if_pos hg, if_pos hg]
      rfl
    · rw [if_neg hg, if_neg hg]
      rfl
  · rw [goToPrevTrace_eq]
    split <;> rfl
  · rw [goToPrevTrace_eq, goToPrev_eq]
    by_cases hg : 0 < s.currentIndex
    · rw [if_pos hg, if_pos hg]
      rfl
    · rw [if_neg hg, if_neg hg]
      rfl

/-- Witness for C3 at a concrete playing state. -/
theorem claim3_stop_precedes_move_check :
    (∀ t ∈ goToNextTrace demoPlaying, t.currentIndex ≠ demoPlaying.currentIndex →
        t.isPlaying = false ∧
        (demoPlaying.audioBound = true → t.audioPaused = true ∧ t.audioTime = 0)) ∧
    (∀ t ∈ goToPrevTrace demoPlaying, t.currentIndex ≠ demoPlaying.currentIndex →
        t.isPlaying = false ∧
        (demoPlaying.audioBound = true → t.audioPaused = true ∧ t.audioTime = 0)) ∧
    (goToNextTrace demoPlaying).head? = some demoPlaying ∧
    (goToNextTrace demoPlaying).getLast? = some (goToNext demoPlaying) ∧
    (goToPrevTrace demoPlaying).head? = some demoPlaying ∧
    (goToPrevTrace demoPlaying).getLast? = some (goToPrev demoPlaying) :=
  claim3_stop_precedes_move demoPlaying (by decide)

/-- C4: after every successful load, the held collection is replaced by
the fetched albums, the index is reset to 0, and playback is stopped
(`isPlaying = false`), for any prior state satisfying the reachability
invariant that a playing state has a bound device, and any fetched
result. -/
theorem claim4_load_success_resets (s : CrateState) (data : AlbumCollection)
    (hb : s.isPlaying = true → s.audioBound = true) :
    (loadAlbums (Except.ok data) s).albums = data.albums ∧
    (loadAlbums (Except.ok data) s).currentIndex = 0 ∧
    (loadAlbums (Except.ok data) s).isPlaying = false := by
  rw [loadAlbums_ok_eq]
  refine ⟨rfl, rfl, ?_⟩
  exact stopPreview_isPlaying_false s hb

/-- Witness for C4: reloading the playing demo state with a one-album
collection. -/
theorem claim4_load_success_resets_check :
    (loadAlbums (Except.ok ⟨[demoAlbum2], 1⟩) demoPlaying).albums = [demoAlbum2] ∧
    (loadAlbums (Except.ok ⟨[demoAlbum2], 1⟩) demoPlaying).currentIndex = 0 ∧
    (loadAlbums (Except.ok ⟨[demoAlbum2], 1⟩) demoPlaying).isPlaying = false :=
  claim4_load_success_resets demoPlaying ⟨[demoAlbum2], 1⟩ (by decide)

/-- C5: a failed load leaves the held album list and the index
unchanged, surfaces the fixed error message to the UI, and ends the
loading state; the handler performs exactly one fetch attempt, so no
retry happens without a further explicit call. -/
theorem claim5_load_failure_preserves (s : CrateState) (msg : String) :
    (loadAlbums (Except.error msg) s).albums = s.albums ∧
    (loadAlbums (Except.error msg) s).currentIndex = s.currentIndex ∧
    (loadAlbums (Except.error msg) s).error = some loadFailureMessage ∧
    (loadAlbums (Except.error msg) s).isLoading = false := by
  rw [loadAlbums_error_eq]
  exact ⟨stopPreview_albums s, stopPreview_currentIndex s, rfl, rfl⟩

@[simp] theorem goToNext_isDragging (s : CrateState) :
    (goToNext s).isDragging = s.isDragging := by
  rw [goToNext_eq]; split <;> simp

@[simp] theorem goToPrev_isDragging (s : CrateState) :
    (goToPrev s).isDragging = s.isDragging := by
  rw [goToPrev_eq]; split <;> simp

/-- C6: ending a drag gesture commits `goToPrev` exactly when the
recorded offset exceeds 80, commits `goToNext` exactly when it is below
-80, and navigates nowhere for any offset in `[-80, 80]` (threshold
hits included); in every case the gesture state is reset to
`isDragging = false`, `dragOffset = 0`. -/
theorem claim6_dragEnd_thresholds (s : CrateState) (hd : s.isDragging = true) :
    (s.dragOffset > 80 →
        handleDragEnd s =
          { goToPrev { s with isDragging := false } with dragOffset := 0 }) ∧
    (s.dragOffset < -80 →
        handleDragEnd s =
          { goToNext { s with isDragging := false } with dragOffset := 0 }) ∧
    (-80 ≤ s.dragOffset → s.dragOffset ≤ 80 →
        handleDragEnd s = { s with isDragging := false, dragOffset := 0 } ∧
        (handleDragEnd s).currentIndex = s.currentIndex) ∧
    (handleDragEnd s).isDragging = false ∧
    (handleDragEnd s).dragOffset = 0 := by
  refine ⟨fun h1 => ?_, fun h2 => ?_, fun h3 h4 => ?_, ?_, ?_⟩
  · rw [handleDragEnd_eq, if_neg (by simp [hd]), if_pos h1]
  · rw [handleDragEnd_eq, if_neg (by simp [hd]),
        if_neg (by simp only [not_lt]; linarith), if_pos h2]
  · have heq : handleDragEnd s = { s with isDragging := false, dragOffset := 0 } := by
      rw [handleDragEnd_eq, if_neg (by simp [hd]), if_neg (not_lt.mpr h4),
          if_neg (not_lt.mpr h3)]
    exact ⟨heq, by rw [heq]⟩
  · rw [handleDragEnd_eq, if_neg (by simp [hd])]
    split_ifs <;> simp
  · rw [handleDragEnd_eq, if_neg (by simp [hd])]
    split_ifs <;> simp

/-- Witness for C6: a release at offset -150 commits `goToNext`; a
release at offset 45 navigates nowhere and only resets the gesture. -/
theorem claim6_dragEnd_thresholds_check :
    (handleDragEnd demoDragLeft =
      { goToNext { demoDragLeft with isDragging := false } with dragOffset := 0 }) ∧
    (handleDragEnd demoDragShort =
      { demoDragShort with isDragging := false, dragOffset := 0 } ∧
     (handleDragEnd demoDragShort).currentIndex = demoDragShort.currentIndex) ∧
    (handleDragEnd demoDragLeft).isDragging = false ∧
    (handleDragEnd demoDragLeft).dragOffset = 0 := by
  have hl := claim6_dragEnd_thresholds demoDragLeft (by decide)
  have hs := claim6_dragEnd_thresholds demoDragShort (by decide)
  exact ⟨hl.2.1 (by decide), hs.2.2.1 (by decide) (by decide),
         hl.2.2.2.1, hl.2.2.2.2⟩

/-- C7: the random-albums query string carries its parameters in the
order `count`, `genres`, `min_tracks`; the `genres` segment is omitted
entirely for an undefined or empty selection, `min_tracks` is omitted
when undefined (albums-only off) or non-positive, and `loadAlbums`
passes no genre list for an empty selection and no `minTracks` when
albums-only is off; for genres `[129, 152]` with albums-only on the
query is exactly `count=10&genres=129,152&min_tracks=2`. -/
theorem claim7_query_string :
    (∀ (c : Int) (g : Option (List Int)) (m : Option Int),
        albumsRandomQuery c g m =
          "count=" ++ toString c ++ genresParam g ++ minTracksParam m) ∧
    genresParam none = "" ∧
    genresParam (some []) = "" ∧
    minTracksParam none = "" ∧
    (∀ mt : Int, mt ≤ 0 → minTracksParam (some mt) = "") ∧
    (∀ s : CrateState, s.selectedGenres = [] → loadGenreIds s = none) ∧
    (∀ s : CrateState, s.showOnlyAlbums = false → loadMinTracks s = none) ∧
    albumsRandomQuery 10 (some [129, 152]) (some 2) =
      "count=10&genres=129,152&min_tracks=2" := by
  refine ⟨?_, rfl, rfl, rfl, ?_, ?_, ?_, by decide⟩
  · intro c g m
    unfold albumsRandomQuery genresParam minTracksParam
    cases g <;> cases m <;> dsimp only
    all_goals try split_ifs
    all_goals simp [String.append_assoc]
  · intro mt hmt
    show (if mt > 0 then "&min_tracks=" ++ toString mt else "") = ""
    rw [if_neg (by omega)]
  · intro s hsel
    unfold loadGenreIds
    rw [if_neg (by simp [hsel])]
  · intro s hso
    unfold loadMinTracks
    rw [if_neg (by simp [hso])]

/-- Witness for C7: the fully concrete query of the spec example and
the omission cases at concrete arguments. -/
theorem claim7_query_string_check :
    albumsRandomQuery 10 (some [129, 152]) (some 2) =
      "count=10&genres=129,152&min_tracks=2" ∧
    albumsRandomQuery 10 none none = "count=" ++ toString (10 : Int) ++
      genresParam none ++ minTracksParam none ∧
    minTracksParam (some 0) = "" ∧
    loadGenreIds demoState = none ∧
    loadMinTracks demoState = none := by
  have h := claim7_query_string
  exact ⟨h.2.2.2.2.2.2.2, h.1 10 none none, h.2.2.2.2.1 0 (by decide),
         h.2.2.2.2.2.1 demoState (by decide), h.2.2.2.2.2.2.1 demoState (by decide)⟩

/-- The selection list after `toggleGenre`: the id is removed at its
first occurrence when present, appended otherwise; playback state does
not feed back into the selection. -/
theorem toggleGenre_selectedGenres (gid : Int) (s : CrateState) :
    (toggleGenre gid s).selectedGenres =
      if gid ∈ s.selectedGenres then s.selectedGenres.erase gid
      else s.selectedGenres ++ [gid] := by
  unfold toggleGenre
  by_cases hm : gid ∈ s.selectedGenres <;> simp [hm]

/-- C8: toggling the same genre id twice returns the selection set to
its original contents, for every duplicate-free starting selection. -/
theorem claim8_toggle_toggle (s : CrateState) (gid : Int)
    (h : s.selectedGenres.Nodup) :
    ∀ x : Int, x ∈ (toggleGenre gid (toggleGenre gid s)).selectedGenres ↔
      x ∈ s.selectedGenres := by
  intro x
  rw [toggleGenre_selectedGenres, toggleGenre_selectedGenres]
  by_cases hm : gid ∈ s.selectedGenres
  · rw [if_pos hm]
    have hgone : gid ∉ s.selectedGenres.erase gid := by
      simp [h.mem_erase_iff]
    rw [if_neg hgone]
    simp only [List.mem_append, h.mem_erase_iff, List.mem_singleton]
    by_cases hx : x = gid <;> simp [hx, hm]
  · rw [if_neg hm]
    have hin : gid ∈ s.selectedGenres ++ [gid] := by simp
    rw [if_pos hin, List.erase_append_right _ hm, List.erase_cons_head,
        List.append_nil]

/-- Witness for C8: toggling Rock (id 152) twice on the empty demo
selection leaves 152 out of the selection, as it started. -/
theorem claim8_toggle_toggle_check :
    152 ∈ (toggleGenre 152 (toggleGenre 152 demoState)).selectedGenres ↔
      152 ∈ demoState.selectedGenres :=
  claim8_toggle_toggle demoState 152 (by decide) 152

/-- C9: `stopPreview` is idempotent; on a bound device one call leaves
playback paused at position zero with state stopped, and with no bound
device the call is a safe no-op. -/
theorem claim9_stop_idempotent (s : CrateState) :
    stopPreview (stopPreview s) = stopPreview s ∧
    (s.audioBound = true →
        (stopPreview s).audioPaused = true ∧ (stopPreview s).audioTime = 0 ∧
        (stopPreview s).isPlaying = false) ∧
    (s.audioBound = false → stopPreview s = s) := by
  refine ⟨?_, fun hbd => ?_, fun hbd => ?_⟩
  · rw [stopPreview_eq (stopPreview s), stopPreview_eq s]
    cases s
    simp_all
  · rw [stopPreview_audioPaused, stopPreview_audioTime, stopPreview_isPlaying]
    simp [hbd]
  · unfold stopPreview
    rw [if_pos hbd]

/-- Witness for C9 at the playing demo state (bound device). -/
theorem claim9_stop_idempotent_check :
    stopPreview (stopPreview demoPlaying) = stopPreview demoPlaying ∧
    ((stopPreview demoPlaying).audioPaused = true ∧
     (stopPreview demoPlaying).audioTime = 0 ∧
     (stopPreview demoPlaying).isPlaying = false) :=
  ⟨(claim9_stop_idempotent demoPlaying).1,
   (claim9_stop_idempotent demoPlaying).2.1 (by decide)⟩

/-- C10: `playPreview` is a total no-op when there is no current album
at the index or no bound audio device: the state is unchanged — in
particular `isPlaying` and `hasInteracted` keep their values — and a
later navigation from the untouched (never-interacted) state schedules
no deferred autoplay. -/
theorem claim10_play_noop (s : CrateState) (allowed : Bool)
    (h : currentAlbum s = none ∨ s.audioBound = false) :
    playPreview allowed s = s ∧
    (playPreview allowed s).isPlaying = s.isPlaying ∧
    (playPreview allowed s).hasInteracted = s.hasInteracted ∧
    (s.hasInteracted = false →
        (goToNext (playPreview allowed s)).scheduledPlays = s.scheduledPlays ∧
        (goToPrev (playPreview allowed s)).scheduledPlays = s.scheduledPlays) := by
  have hid : playPreview allowed s = s := by
    unfold playPreview
    rcases h with hc | hb
    · rw [hc]
    · cases hca : currentAlbum s with
      | none => rfl
      | some a => simp [hb]
  refine ⟨hid, by rw [hid], by rw [hid], fun hq => ?_⟩
  rw [hid]
  exact ⟨goToNext_scheduledPlays_of_quiet s hq,
         goToPrev_scheduledPlays_of_quiet s hq⟩

/-- Witness for C10 at the empty, unbound demo state. -/
theorem claim10_play_noop_check :
    playPreview true demoEmpty = demoEmpty ∧
    (playPreview true demoEmpty).isPlaying = demoEmpty.isPlaying ∧
    (playPreview true demoEmpty).hasInteracted = demoEmpty.hasInteracted ∧
    ((goToNext (playPreview true demoEmpty)).scheduledPlays =
        demoEmpty.scheduledPlays ∧
     (goToPrev (playPreview true demoEmpty)).scheduledPlays =
        demoEmpty.scheduledPlays) := by
  have h := claim10_play_noop demoEmpty true (by decide)
  exact ⟨h.1, h.2.1, h.2.2.1, h.2.2.2 (by decide)⟩
